import Mathlib

/-!
Verification of the BrevDoctor GPU-provisioning core.

This file gives a shallow embedding, in Lean 4, of the provisioning core of
the BrevDoctor repository:

* the error-classification logic of `attemptGpuProvisioning`
  (src/lib/brev-api.ts),
* the JWT expiry check `isTokenExpired` and the token-resolution function
  `getValidBrevToken` (same file),
* the recursive provisioning attempt `attemptGpuProvisioning` itself,
  with its external effects (CLI calls, token refreshes) made explicit
  through oracle parameters,
* the provisioning retry loop of the analyze route
  (src/app/api/analyze/route.ts), and
* the rule-based selector `findBestInstance` (src/lib/broker.ts).

TypeScript strings are modelled as `String` (with character-level helpers
on `List Char` mirroring the JavaScript string primitives actually used),
TypeScript numbers as `ℚ`, and external nondeterminism (process
environment, credential file contents, CLI outcomes, LLM retry decisions,
wall-clock time) as explicit parameters, so every definition is executable.
-/

/-! ## Character-level text utilities

JavaScript string operations used by the source, modelled on `List Char`.
-/

/-- Model of JavaScript `String.prototype.toLowerCase` restricted to the
ASCII texts the source compares (error keywords are all ASCII). -/
def jsToLower (s : List Char) : List Char := s.map Char.toLower

/-- Model of JavaScript `haystack.includes(needle)`: `needle` occurs as a
contiguous substring of `haystack`. -/
def jsIncludes (haystack needle : List Char) : Bool :=
  decide (needle <:+: haystack)

/-- Model of JavaScript `s.split(".")` (used by `decodeJWT` on a JWT
string): cut the character list at every dot. -/
def jsSplitDot : List Char → List (List Char)
  | [] => [[]]
  | c :: rest =>
    if c = '.' then [] :: jsSplitDot rest
    else
      match jsSplitDot rest with
      | [] => [[c]]
      | p :: ps => (c :: p) :: ps

/-! ## Failure classification (`attemptGpuProvisioning`, src/lib/brev-api.ts)

The catch block of `attemptGpuProvisioning` builds
`${errorMessage} ${stderr}`.toLowerCase()` and classifies it by
case-insensitive substring matching, checking the out-of-stock keywords
first, then the auth keywords, then the invalid-config keywords, and
falling back to `unknown`.
-/

/-- Error taxonomy of `ProvisioningResult.errorType` in src/lib/brev-api.ts. -/
inductive ErrType where
  | out_of_stock
  | auth_error
  | invalid_config
  | unknown
deriving DecidableEq, Repr

/-- Combined error text built in the catch block of
`attemptGpuProvisioning`: `` `${errorMessage} ${stderr}`.toLowerCase() ``. -/
def combinedError (errorMessage stderr : String) : List Char :=
  jsToLower (errorMessage.data ++ ' ' :: stderr.data)

/-- Classification if-chain from the catch block of
`attemptGpuProvisioning` (src/lib/brev-api.ts, lines 369-428), applied to
the combined lowercased error text. -/
def classifyError (c : List Char) : ErrType :=
  if jsIncludes c "out of stock".data ||
     jsIncludes c "no capacity".data ||
     jsIncludes c "unavailable".data ||
     jsIncludes c "insufficient".data ||
     jsIncludes c "not available".data ||
     jsIncludes c "no instances available".data ||
     jsIncludes c "quota exceeded".data then
    .out_of_stock
  else if jsIncludes c "unauthorized".data ||
          jsIncludes c "authentication".data ||
          jsIncludes c "invalid token".data ||
          jsIncludes c "expired".data then
    .auth_error
  else if jsIncludes c "invalid gpu".data ||
          jsIncludes c "unknown gpu".data ||
          jsIncludes c "not found".data then
    .invalid_config
  else
    .unknown

/-- Keyword list for `out_of_stock` as given by the spec (§4.3 step 6). -/
def oosKeywords : List String :=
  ["out of stock", "no capacity", "unavailable", "insufficient",
   "not available", "no instances available", "quota exceeded"]

/-- Keyword list for `auth_error` as given by the spec (§4.3 step 6). -/
def authKeywords : List String :=
  ["unauthorized", "authentication", "invalid token", "expired"]

/-- Keyword list for `invalid_config` as given by the spec (§4.3 step 6). -/
def invalidConfigKeywords : List String :=
  ["invalid gpu", "unknown gpu", "not found"]

/-- Classifier written from the spec's words (§4.3 step 6): match the
keyword lists as data, `out_of_stock` first, then `auth_error`, then
`invalid_config`, else `unknown`. Used only to compare against
`classifyError`, which is translated from the source. -/
def specClassifyError (c : List Char) : ErrType :=
  if oosKeywords.any (fun k => jsIncludes c k.data) then .out_of_stock
  else if authKeywords.any (fun k => jsIncludes c k.data) then .auth_error
  else if invalidConfigKeywords.any (fun k => jsIncludes c k.data) then .invalid_config
  else .unknown

/-- C4: for every error message and stderr text, the catch block of
`attemptGpuProvisioning` classifies the combined lowercased
message-plus-stderr text into exactly one of `out_of_stock`, `auth_error`,
`invalid_config`, `unknown` by case-insensitive substring matching against
exactly the spec's keyword lists, checking `out_of_stock` first, then
`auth_error`, then `invalid_config`, with `unknown` as the default. -/
theorem classifyError_matches_spec (errorMessage stderr : String) :
    classifyError (combinedError errorMessage stderr) =
      specClassifyError (combinedError errorMessage stderr) := by
  simp [classifyError, specClassifyError, oosKeywords, authKeywords,
    invalidConfigKeywords, List.any_cons, List.any_nil, Bool.or_assoc]

/-! ## JWT decoding and token expiry (src/lib/brev-api.ts)

`decodeJWT` splits the token on dots, base64-decodes the middle part and
parses it as JSON inside a try/catch returning `null` on any failure.
Base64 decoding plus JSON parsing is a pure function of the payload
string; it is passed in as the parameter `parse`, with `none` covering
every failure the catch swallows.  `isTokenExpired` reads `Date.now()`;
the current unix time `now` is likewise a parameter.
-/

/-- Shape of the decoded JWT payload used by the source:
`{ exp?: number; iat?: number }`. -/
structure JwtPayload where
  exp : Option Int
  iat : Option Int
deriving DecidableEq, Repr

/-- Model of `decodeJWT` (src/lib/brev-api.ts, lines 183-193): split on
dots, require exactly three parts, then decode and JSON-parse the middle
part via `parse`; any failure yields `none` (the catch returns `null`). -/
def decodeJWT (parse : List Char → Option JwtPayload) (token : String) :
    Option JwtPayload :=
  let parts := jsSplitDot token.data
  if parts.length = 3 then parse (parts.getD 1 []) else none

/-- Model of `isTokenExpired` (src/lib/brev-api.ts, lines 198-207).
`!decoded?.exp` is true in JavaScript when the decode failed, when `exp`
is absent, and when `exp` is `0` (falsy); otherwise the source returns
`decoded.exp < now + 300`. -/
def isTokenExpired (parse : List Char → Option JwtPayload) (now : Int)
    (token : String) : Bool :=
  match decodeJWT parse token with
  | none => true
  | some decoded =>
    match decoded.exp with
    | none => true
    | some e => if e = 0 then true else decide (e < now + 5 * 60)

/-- C10: any token that is not a three-part JWT, or whose payload fails to
parse, or whose payload lacks an `exp` field, is treated as expired by
`isTokenExpired`, and `decodeJWT` returns `none` (rather than throwing)
whenever the token is not a three-part JWT. -/
theorem isTokenExpired_of_malformed
    (parse : List Char → Option JwtPayload) (now : Int) (token : String)
    (h : (jsSplitDot token.data).length ≠ 3 ∨
         decodeJWT parse token = none ∨
         ∃ p, decodeJWT parse token = some p ∧ p.exp = none) :
    isTokenExpired parse now token = true ∧
      ((jsSplitDot token.data).length ≠ 3 → decodeJWT parse token = none) := by
  constructor
  · rcases h with h | h | ⟨p, hp, hexp⟩
    · simp [isTokenExpired, decodeJWT, h]
    · simp [isTokenExpired, h]
    · simp [isTokenExpired, hp, hexp]
  · intro h3
    simp [decodeJWT, h3]

/-- Witness for `isTokenExpired_of_malformed` at the concrete opaque token
`"not-a-jwt"` (a single part, no dots). -/
theorem isTokenExpired_of_malformed_witness :
    isTokenExpired (fun _ => none) 1000 "not-a-jwt" = true ∧
      ((jsSplitDot "not-a-jwt".data).length ≠ 3 →
        decodeJWT (fun _ => none) "not-a-jwt" = none) :=
  isTokenExpired_of_malformed (fun _ => none) 1000 "not-a-jwt"
    (Or.inl (by decide))

/-- Payload parser used for concrete counterexamples: every payload
decodes to `{ exp: 1300 }`. -/
def parseExp1300 : List Char → Option JwtPayload :=
  fun _ => some { exp := some 1300, iat := none }

/-- C7 counterexample: at `now = 1000` a token whose declared expiry is
exactly `now + 300 = 1300` satisfies `now + 300 ≥ expires_at`, yet
`isTokenExpired` reports it as NOT expired: the source compares with
strict `<` (`decoded.exp < now + fiveMinutes`), so the boundary case is
treated as still valid, contradicting the claim. -/
theorem isTokenExpired_boundary_counterexample :
    isTokenExpired parseExp1300 1000 "h.p.s" = false ∧
      (1000 : Int) + 300 ≥ 1300 := by
  constructor
  · decide
  · decide

/-- C7 amended: for every token with a declared nonzero expiry `e`, the
token is classified as expired exactly when `e < now + 300` (strictly);
in particular a token whose expiry equals `now + 300` exactly is NOT
treated as expired. -/
theorem isTokenExpired_iff_strict
    (parse : List Char → Option JwtPayload) (now : Int) (token : String)
    (p : JwtPayload) (e : Int)
    (hdec : decodeJWT parse token = some p) (hexp : p.exp = some e)
    (hne : e ≠ 0) :
    isTokenExpired parse now token = true ↔ e < now + 300 := by
  simp [isTokenExpired, hdec, hexp, hne]

/-- Witness for `isTokenExpired_iff_strict`: the concrete token of the
boundary counterexample, whose payload parses to `exp = 1300`. -/
theorem isTokenExpired_iff_strict_witness :
    isTokenExpired parseExp1300 1000 "h.p.s" = true ↔ (1300 : Int) < 1000 + 300 :=
  isTokenExpired_iff_strict parseExp1300 1000 "h.p.s"
    { exp := some 1300, iat := none } 1300 (by decide) rfl (by decide)

/-! ## Token resolution (`getValidBrevToken`, src/lib/brev-api.ts)

`getValidBrevToken` reads `process.env.BREV_TOKEN`, falls back to the
credential file, returns `null` when neither yields a (truthy) token,
refreshes when the token is expired, and — when the refresh fails —
falls back to the existing expired token.  The process environment, the
credential-file read, and the refresh command's outcome are oracle
parameters; cache/environment writes do not affect the returned value and
are not modelled.
-/

/-- JavaScript truthiness for `string | null` values as used in
`token || null` and `credentials.access_token || null`: the empty string
and `null` are both falsy. -/
def jsTruthy (o : Option String) : Option String :=
  match o with
  | some s => if s.data.isEmpty then none else some s
  | none => none

/-- Model of `refreshBrevToken` (src/lib/brev-api.ts, lines 231-262).
`refreshExecOk` tells whether `brev refresh` ran without throwing;
`refreshCreds` is what `readTokenFromCredentials` returns afterwards
(`none` covering a missing file, a parse failure, or a falsy
`access_token`).  The new token is returned only if present and not
expired; every failure path returns `none`. -/
def refreshBrevToken (parse : List Char → Option JwtPayload) (now : Int)
    (refreshExecOk : Bool) (refreshCreds : Option String) : Option String :=
  if refreshExecOk then
    match jsTruthy refreshCreds with
    | some newToken =>
      if isTokenExpired parse now newToken = false then some newToken else none
    | none => none
  else none

/-- Model of `getValidBrevToken` (src/lib/brev-api.ts, lines 268-306).
`envToken` is `process.env.BREV_TOKEN`; `fileCreds` is what
`readTokenFromCredentials` returns on the first read.  When the resolved
token is expired the function refreshes; if the refresh fails it returns
the existing (expired) token — the "might still work for a bit" path. -/
def getValidBrevToken (parse : List Char → Option JwtPayload) (now : Int)
    (envToken fileCreds : Option String)
    (refreshExecOk : Bool) (refreshCreds : Option String) : Option String :=
  let token :=
    match jsTruthy envToken with
    | some t => some t
    | none => jsTruthy fileCreds
  match token with
  | none => none
  | some t =>
    if isTokenExpired parse now t then
      match refreshBrevToken parse now refreshExecOk refreshCreds with
      | some newToken => some newToken
      | none => some t
    else some t

/-- Opaque-token environment for the C3 counterexample: the only token is
`"expired-token"` (no dots, hence treated as expired) and the refresh
command throws. -/
theorem getValidBrevToken_expired_fallback_counterexample :
    isTokenExpired (fun _ => none) 1000 "expired-token" = true ∧
      refreshBrevToken (fun _ => none) 1000 false none = none ∧
      getValidBrevToken (fun _ => none) 1000 (some "expired-token") none
        false none = some "expired-token" := by
  refine ⟨by decide, rfl, ?_⟩
  decide

/-- C3 amended: whenever the resolved token `t` (from the environment, or
the credential file as fallback) is expired and the refresh returns
`null`, `getValidBrevToken` returns the expired token `t` itself — not
`null`; `null` is returned only when no token is available at all. -/
theorem getValidBrevToken_returns_expired_on_refresh_failure
    (parse : List Char → Option JwtPayload) (now : Int)
    (envToken fileCreds : Option String)
    (refreshExecOk : Bool) (refreshCreds : Option String) (t : String)
    (hres : (match jsTruthy envToken with
             | some t0 => some t0
             | none => jsTruthy fileCreds) = some t)
    (hexp : isTokenExpired parse now t = true)
    (href : refreshBrevToken parse now refreshExecOk refreshCreds = none) :
    getValidBrevToken parse now envToken fileCreds refreshExecOk refreshCreds
      = some t := by
  unfold getValidBrevToken
  simp only [hres, hexp, href, if_true]

/-- Witness for `getValidBrevToken_returns_expired_on_refresh_failure` at
the concrete environment of the counterexample. -/
theorem getValidBrevToken_returns_expired_on_refresh_failure_witness :
    getValidBrevToken (fun _ => none) 1000 (some "expired-token") none
      false none = some "expired-token" :=
  getValidBrevToken_returns_expired_on_refresh_failure
    (fun _ => none) 1000 (some "expired-token") none false none
    "expired-token" (by decide) (by decide) rfl

/-! ## Provisioning attempts (`attemptGpuProvisioning`, src/lib/brev-api.ts)

`attemptGpuProvisioning` resolves a token, runs `brev login` and
`brev create` through the CLI, and classifies any thrown error; when the
classification is `auth_error` and a token refresh succeeds it calls
itself recursively with the same arguments and no depth bound.  The
external world (token sources and CLI outcomes, per call depth) is an
explicit environment, the recursion is driven by a fuel parameter (`none`
as first component means the fuel ran out before the source would have
returned), and the CLI commands issued are collected in a list.
-/

/-- Error object thrown by `execAsync`: its `message` and `stderr` texts. -/
structure CliError where
  msg : String
  stderr : String
deriving DecidableEq, Repr

/-- Result record of `attemptGpuProvisioning`
(interface `ProvisioningResult` in src/lib/brev-api.ts). -/
structure ProvisioningResult where
  success : Bool
  workspaceName : Option String := none
  error : Option String := none
  errorType : Option ErrType := none
  suggestion : Option String := none
deriving DecidableEq, Repr

/-- External CLI commands issued by `attemptGpuProvisioning`:
`brev login` and `brev create` (recorded with the requested GPU). -/
inductive Cmd where
  | login
  | create (gpuName : String) (gpuCount : ℚ)
deriving DecidableEq, Repr

/-- External world of `attemptGpuProvisioning`, indexed by recursion
depth `k`: token sources consumed by `getValidBrevToken`, the outcome of
`brev login` and `brev create`, the outcome of the token refresh in the
auth-error branch, and the timestamp-derived default workspace name. -/
structure ProvEnv where
  parse : List Char → Option JwtPayload
  now : Int
  envTokenAt : Nat → Option String
  fileCredsAt : Nat → Option String
  refreshExecOkAt : Nat → Bool
  refreshCredsAt : Nat → Option String
  loginErrAt : Nat → Option CliError
  createAt : Nat → Except CliError String
  authRefreshExecOkAt : Nat → Bool
  authRefreshCredsAt : Nat → Option String
  wsNameAt : Nat → String

/-- Result returned when `getValidBrevToken` yields no token
(src/lib/brev-api.ts, lines 324-331). -/
def noTokenResult : ProvisioningResult :=
  { success := false
    error := some "BREV_TOKEN not found or expired. Please run 'brev login' or set BREV_TOKEN"
    errorType := some .auth_error
    suggestion := some "Run 'brev login' to authenticate or set BREV_TOKEN in your environment" }

/-- Result returned on an out-of-stock classification. -/
def oosResult (gpuName : String) : ProvisioningResult :=
  { success := false
    error := some ("GPU " ++ gpuName ++ " is currently out of stock or unavailable")
    errorType := some .out_of_stock
    suggestion := some "Try a different GPU type or memory configuration" }

/-- Result returned when the auth-error retry path fails to refresh. -/
def authFailResult : ProvisioningResult :=
  { success := false
    error := some "Authentication failed with Brev CLI"
    errorType := some .auth_error
    suggestion := some "Run 'brev login' to re-authenticate" }

/-- Result returned on an invalid-config classification. -/
def invalidConfigResult (gpuName : String) : ProvisioningResult :=
  { success := false
    error := some ("Invalid GPU configuration: " ++ gpuName)
    errorType := some .invalid_config
    suggestion := some "Check GPU name spelling and try again" }

/-- Result returned on an unclassified error. -/
def unknownResult (errorMessage : String) : ProvisioningResult :=
  { success := false
    error := some errorMessage
    errorType := some .unknown
    suggestion := some "Check Brev CLI is installed and configured correctly" }

/-- Model of `attemptGpuProvisioning` (src/lib/brev-api.ts, lines
317-430).  The first `Nat` is fuel (the source recursion has no bound, so
`none` marks runs that exceed the fuel); the second is the recursion
depth `k` used to index the environment.  The second component collects
the CLI commands issued, in order. -/
def attemptGpuProvisioningFuel (env : ProvEnv) (gpuName : String)
    (gpuCount : ℚ) (workspaceName : Option String) :
    Nat → Nat → Option ProvisioningResult × List Cmd
  | 0, _ => (none, [])
  | fuel + 1, k =>
    match getValidBrevToken env.parse env.now (env.envTokenAt k)
        (env.fileCredsAt k) (env.refreshExecOkAt k) (env.refreshCredsAt k) with
    | none => (some noTokenResult, [])
    | some _brevToken =>
      let name := workspaceName.getD (env.wsNameAt k)
      let handleCatch : CliError → List Cmd → Option ProvisioningResult × List Cmd :=
        fun e cmds =>
          match classifyError (combinedError e.msg e.stderr) with
          | .out_of_stock => (some (oosResult gpuName), cmds)
          | .auth_error =>
            match refreshBrevToken env.parse env.now
                (env.authRefreshExecOkAt k) (env.authRefreshCredsAt k) with
            | some _freshToken =>
              let r := attemptGpuProvisioningFuel env gpuName gpuCount
                workspaceName fuel (k + 1)
              (r.1, cmds ++ r.2)
            | none => (some authFailResult, cmds)
          | .invalid_config => (some (invalidConfigResult gpuName), cmds)
          | .unknown => (some (unknownResult e.msg), cmds)
      match env.loginErrAt k with
      | some e => handleCatch e [Cmd.login]
      | none =>
        match env.createAt k with
        | .ok stdout =>
          if jsIncludes stdout.data "RUNNING".data ||
             jsIncludes stdout.data "running".data then
            (some { success := true, workspaceName := some name },
             [Cmd.login, Cmd.create gpuName gpuCount])
          else
            (some { success := true, workspaceName := some name
                    suggestion := some "Workspace created but may still be starting up" },
             [Cmd.login, Cmd.create gpuName gpuCount])
        | .error e => handleCatch e [Cmd.login, Cmd.create gpuName gpuCount]

/-- C8: whenever the credential manager yields no token, a provisioning
attempt returns `success := false` with `errorType = auth_error`
immediately, and issues no CLI command (no login, no create). -/
theorem attemptGpuProvisioning_no_token (env : ProvEnv) (gpuName : String)
    (gpuCount : ℚ) (workspaceName : Option String) (fuel k : Nat)
    (h : getValidBrevToken env.parse env.now (env.envTokenAt k)
      (env.fileCredsAt k) (env.refreshExecOkAt k) (env.refreshCredsAt k) = none) :
    attemptGpuProvisioningFuel env gpuName gpuCount workspaceName (fuel + 1) k
        = (some noTokenResult, []) ∧
      noTokenResult.success = false ∧
      noTokenResult.errorType = some .auth_error := by
  refine ⟨?_, rfl, rfl⟩
  unfold attemptGpuProvisioningFuel
  rw [h]

/-- Environment with no token anywhere (no `BREV_TOKEN`, no credential
file), used to witness the no-token path. -/
def emptyTokenEnv : ProvEnv :=
  { parse := fun _ => none
    now := 1000
    envTokenAt := fun _ => none
    fileCredsAt := fun _ => none
    refreshExecOkAt := fun _ => false
    refreshCredsAt := fun _ => none
    loginErrAt := fun _ => none
    createAt := fun _ => .ok "RUNNING"
    authRefreshExecOkAt := fun _ => false
    authRefreshCredsAt := fun _ => none
    wsNameAt := fun _ => "brev-doctor-0" }

/-- Witness for `attemptGpuProvisioning_no_token` in the concrete
environment with no token available. -/
theorem attemptGpuProvisioning_no_token_witness :
    attemptGpuProvisioningFuel emptyTokenEnv "H100" 1 none 1 0
        = (some noTokenResult, []) ∧
      noTokenResult.success = false ∧
      noTokenResult.errorType = some .auth_error :=
  attemptGpuProvisioning_no_token emptyTokenEnv "H100" 1 none 0 0 rfl

/-- Payload parser for the persistent-auth-failure scenario: every token
decodes with a far-future expiry, so tokens are always valid. -/
def parseFarFuture : List Char → Option JwtPayload :=
  fun _ => some { exp := some 999999999, iat := none }

/-- Adversarial environment for the auth-retry recursion: the token is
always valid, `brev login` succeeds, `brev create` always throws
`"Unauthorized"`, and every token refresh succeeds.  This is the spec's
"backend persistently rejects refreshed tokens" scenario. -/
def persistentAuthRejectEnv : ProvEnv :=
  { parse := parseFarFuture
    now := 0
    envTokenAt := fun _ => some "h.p.s"
    fileCredsAt := fun _ => none
    refreshExecOkAt := fun _ => true
    refreshCredsAt := fun _ => some "h.p.s"
    loginErrAt := fun _ => none
    createAt := fun _ => .error { msg := "Unauthorized", stderr := "" }
    authRefreshExecOkAt := fun _ => true
    authRefreshCredsAt := fun _ => some "h.p.s"
    wsNameAt := fun _ => "brev-doctor-0" }

/-- C2: in the persistent-auth-failure environment the recursion of
`attemptGpuProvisioning` never returns (no amount of fuel suffices) and
issues two CLI commands (a login and a create) per unit of fuel: the
auth-error self-retry is NOT bounded to one extra attempt — each level
refreshes and re-attempts again, so with fuel `f` the run dispatches `f`
provisioning attempts instead of at most two. -/
theorem attemptGpuProvisioning_auth_retry_unbounded (fuel k : Nat) :
    (attemptGpuProvisioningFuel persistentAuthRejectEnv "H100" 1 none fuel k).1
        = none ∧
      (attemptGpuProvisioningFuel persistentAuthRejectEnv "H100" 1 none fuel k).2.length
        = 2 * fuel := by
  induction fuel generalizing k with
  | zero => exact ⟨rfl, rfl⟩
  | succ f ih =>
    have htok : getValidBrevToken persistentAuthRejectEnv.parse
        persistentAuthRejectEnv.now (persistentAuthRejectEnv.envTokenAt k)
        (persistentAuthRejectEnv.fileCredsAt k)
        (persistentAuthRejectEnv.refreshExecOkAt k)
        (persistentAuthRejectEnv.refreshCredsAt k) = some "h.p.s" := rfl
    have hclass : classifyError (combinedError "Unauthorized" "") = .auth_error := by
      decide
    have hrefresh : refreshBrevToken persistentAuthRejectEnv.parse
        persistentAuthRejectEnv.now (persistentAuthRejectEnv.authRefreshExecOkAt k)
        (persistentAuthRejectEnv.authRefreshCredsAt k) = some "h.p.s" := rfl
    have hlogin : persistentAuthRejectEnv.loginErrAt k = none := rfl
    have hcreate : persistentAuthRejectEnv.createAt k
        = .error { msg := "Unauthorized", stderr := "" } := rfl
    obtain ⟨ih1, ih2⟩ := ih (k + 1)
    unfold attemptGpuProvisioningFuel
    rw [htok, hlogin, hcreate]
    simp only [hclass, hrefresh, ih1, List.length_append, ih2,
      List.length_cons, List.length_nil]
    exact ⟨trivial, by omega⟩

/-! ## Provisioning retry loop (src/app/api/analyze/route.ts, lines 498-585)

The analyze route drives at most `MAX_RETRIES` provisioning attempts.
After a failure it breaks unless the error was classified `out_of_stock`
and retry budget remains; otherwise it asks `decideGpuRetry` — an
external LLM call whose output is only schema-validated — for the next
candidate and adopts that candidate verbatim.  The gateway results and
the LLM decisions are oracle parameters indexed by attempt number.
-/

/-- Output schema of `decideGpuRetry` (`GpuRetryDecisionSchema`,
src/types/agentSchemas.ts): the only constraints on the LLM output. -/
structure GpuRetryDecision where
  thinking : String
  should_retry : Bool
  next_gpu : Option String := none
  next_vram : Option ℚ := none
  next_gpu_count : Option ℚ := none
  fallback_reason : Option String := none
deriving DecidableEq, Repr

/-- Attempt record pushed onto `provisioningAttempts` by the route loop. -/
structure RouteAttempt where
  gpu : String
  vram : ℚ
  gpuCount : ℚ
  success : Bool
  error : Option String := none
  errorType : Option ErrType := none
deriving DecidableEq, Repr

/-- Retry budget of the route loop (`const MAX_RETRIES = 3`). -/
def MAX_RETRIES : Nat := 3

/-- JavaScript `o || dflt` for numbers: `0`, like `undefined`, is falsy
and falls back to the current value (used for `next_vram` and
`next_gpu_count`). -/
def jsNumOr (o : Option ℚ) (dflt : ℚ) : ℚ :=
  match o with
  | some v => if v = 0 then dflt else v
  | none => dflt

/-- Model of the provisioning retry loop of the route handler
(src/app/api/analyze/route.ts, lines 503-585), returning the
`provisioningAttempts` history.  `provResult i` is the gateway outcome of
attempt `i`; `decision i` is the LLM retry decision requested after
attempt `i`.  The fuel equals `MAX_RETRIES - attempt` at every call from
the entry point below. -/
def provisionRetryLoop (provResult : Nat → ProvisioningResult)
    (decision : Nat → GpuRetryDecision) :
    Nat → Nat → String → ℚ → ℚ → List RouteAttempt
  | 0, _, _, _, _ => []
  | fuel + 1, attempt, gpu, vram, count =>
    let result := provResult attempt
    let att : RouteAttempt :=
      { gpu := gpu, vram := vram, gpuCount := count
        success := result.success, error := result.error
        errorType := result.errorType }
    if result.success then [att]
    else if result.errorType ≠ some .out_of_stock ∨ MAX_RETRIES - 1 ≤ attempt then [att]
    else
      let d := decision attempt
      if d.should_retry = false ∨ jsTruthy d.next_gpu = none then [att]
      else
        att :: provisionRetryLoop provResult decision fuel (attempt + 1)
          ((jsTruthy d.next_gpu).getD gpu)
          (jsNumOr d.next_vram vram) (jsNumOr d.next_gpu_count count)

/-- Entry point of the loop: attempt counter starts at `0` with the
broker's selected GPU, and the `for` loop dispatches at most
`MAX_RETRIES` iterations. -/
def runProvisionLoop (provResult : Nat → ProvisioningResult)
    (decision : Nat → GpuRetryDecision)
    (gpu : String) (vram count : ℚ) : List RouteAttempt :=
  provisionRetryLoop provResult decision MAX_RETRIES 0 gpu vram count

/-- Attempt record built from a gateway result and the current candidate
(the object literal pushed onto `provisioningAttempts` in the route). -/
def routeAttemptRecord (result : ProvisioningResult) (gpu : String)
    (vram count : ℚ) : RouteAttempt :=
  { gpu := gpu, vram := vram, gpuCount := count
    success := result.success, error := result.error
    errorType := result.errorType }

/-- Unfolding lemma for one iteration of the loop, with the local
bindings expanded. -/
theorem provisionRetryLoop_succ (provResult : Nat → ProvisioningResult)
    (decision : Nat → GpuRetryDecision) (f attempt : Nat)
    (gpu : String) (vram count : ℚ) :
    provisionRetryLoop provResult decision (f + 1) attempt gpu vram count =
      (if (provResult attempt).success then
        [routeAttemptRecord (provResult attempt) gpu vram count]
      else if (provResult attempt).errorType ≠ some .out_of_stock ∨
          MAX_RETRIES - 1 ≤ attempt then
        [routeAttemptRecord (provResult attempt) gpu vram count]
      else if (decision attempt).should_retry = false ∨
          jsTruthy (decision attempt).next_gpu = none then
        [routeAttemptRecord (provResult attempt) gpu vram count]
      else
        routeAttemptRecord (provResult attempt) gpu vram count ::
          provisionRetryLoop provResult decision f (attempt + 1)
            ((jsTruthy (decision attempt).next_gpu).getD gpu)
            (jsNumOr (decision attempt).next_vram vram)
            (jsNumOr (decision attempt).next_gpu_count count)) := rfl

/-- Helper: the loop emits at most `fuel` attempt records. -/
theorem provisionRetryLoop_length_le (provResult : Nat → ProvisioningResult)
    (decision : Nat → GpuRetryDecision) (fuel attempt : Nat)
    (gpu : String) (vram count : ℚ) :
    (provisionRetryLoop provResult decision fuel attempt gpu vram count).length
      ≤ fuel := by
  induction fuel generalizing attempt gpu vram count with
  | zero => simp [provisionRetryLoop]
  | succ f ih =>
    rw [provisionRetryLoop_succ]
    split
    · simp
    split
    · simp
    split
    · simp
    simpa using ih (attempt + 1) _ _ _

/-- Helper: every attempt record that is followed by another one in the
history is a failure classified `out_of_stock`. -/
theorem provisionRetryLoop_mid_out_of_stock
    (provResult : Nat → ProvisioningResult)
    (decision : Nat → GpuRetryDecision) (fuel attempt : Nat)
    (gpu : String) (vram count : ℚ) (i : Nat) (a b : RouteAttempt)
    (ha : (provisionRetryLoop provResult decision fuel attempt gpu vram count)[i]?
            = some a)
    (hb : (provisionRetryLoop provResult decision fuel attempt gpu vram count)[i+1]?
            = some b) :
    a.success = false ∧ a.errorType = some .out_of_stock := by
  induction fuel generalizing attempt gpu vram count i with
  | zero => simp [provisionRetryLoop] at ha
  | succ f ih =>
    rw [provisionRetryLoop_succ] at ha hb
    by_cases hs : (provResult attempt).success = true
    · rw [if_pos hs] at ha hb
      rcases i with _ | i <;> simp at hb
    · rw [if_neg hs] at ha hb
      by_cases hterm : (provResult attempt).errorType ≠ some .out_of_stock ∨
          MAX_RETRIES - 1 ≤ attempt
      · rw [if_pos hterm] at ha hb
        rcases i with _ | i <;> simp at hb
      · rw [if_neg hterm] at ha hb
        by_cases hdec : (decision attempt).should_retry = false ∨
            jsTruthy (decision attempt).next_gpu = none
        · rw [if_pos hdec] at ha hb
          rcases i with _ | i <;> simp at hb
        · rw [if_neg hdec] at ha hb
          push_neg at hterm
          rcases i with _ | i
          · simp only [List.getElem?_cons_zero, Option.some_inj] at ha
            subst ha
            refine ⟨by simpa [routeAttemptRecord] using hs, ?_⟩
            simpa [routeAttemptRecord] using hterm.1
          · simp only [List.getElem?_cons_succ] at ha hb
            exact ih (attempt + 1) _ _ _ i ha hb

/-- C5: every run of the provisioning retry loop dispatches at most
`MAX_RETRIES = 3` attempts, and a failed attempt whose error type is
anything other than `out_of_stock` is always the last one dispatched: any
attempt record followed by another is an `out_of_stock` failure. -/
theorem runProvisionLoop_bounded_and_terminal
    (provResult : Nat → ProvisioningResult)
    (decision : Nat → GpuRetryDecision)
    (gpu : String) (vram count : ℚ) :
    (runProvisionLoop provResult decision gpu vram count).length ≤ 3 ∧
      ∀ i a b,
        (runProvisionLoop provResult decision gpu vram count)[i]? = some a →
        (runProvisionLoop provResult decision gpu vram count)[i+1]? = some b →
        a.success = false ∧ a.errorType = some .out_of_stock :=
  ⟨provisionRetryLoop_length_le provResult decision MAX_RETRIES 0 gpu vram count,
   fun i a b ha hb =>
     provisionRetryLoop_mid_out_of_stock provResult decision MAX_RETRIES 0
       gpu vram count i a b ha hb⟩

/-- Gateway oracle: the first attempt fails out-of-stock, every later
attempt succeeds. -/
def oosThenSuccessProv : Nat → ProvisioningResult :=
  fun i =>
    if i = 0 then oosResult "H100"
    else { success := true, workspaceName := some "brev-doctor-1" }

/-- LLM-decision oracle proposing a much smaller card (`T4`, 16 GB × 1)
after every failure — a schema-valid decision that violates the 60% VRAM
floor relative to an 80 GB first attempt. -/
def deathSpiralDecision : Nat → GpuRetryDecision :=
  fun _ =>
    { thinking := "Only the T4 is free right now"
      should_retry := true
      next_gpu := some "T4"
      next_vram := some 16
      next_gpu_count := some 1
      fallback_reason := some "all larger cards out of stock" }

/-- Witness for `runProvisionLoop_bounded_and_terminal` on a concrete run
(first attempt out of stock, second attempt succeeds). -/
theorem runProvisionLoop_bounded_and_terminal_witness :
    (runProvisionLoop oosThenSuccessProv deathSpiralDecision "H100" 80 1).length
        ≤ 3 ∧
      (routeAttemptRecord (oosResult "H100") "H100" 80 1).success = false ∧
      (routeAttemptRecord (oosResult "H100") "H100" 80 1).errorType
        = some .out_of_stock :=
  ⟨(runProvisionLoop_bounded_and_terminal oosThenSuccessProv
      deathSpiralDecision "H100" 80 1).1,
   (runProvisionLoop_bounded_and_terminal oosThenSuccessProv
      deathSpiralDecision "H100" 80 1).2 0
     (routeAttemptRecord (oosResult "H100") "H100" 80 1)
     (routeAttemptRecord (oosThenSuccessProv 1) "T4" 16 1)
     (by decide) (by decide)⟩

/-- C9 counterexample: after a first attempt that delivered
`80 GB × 1` and failed `out_of_stock`, the orchestrator dispatches the
LLM-proposed `T4` with `16 GB × 1` — and `16 × 1 < 0.6 × (80 × 1)`: the
60% no-death-spiral floor is not enforced on the next candidate. -/
theorem decideGpuRetry_no_vram_floor_counterexample :
    ((runProvisionLoop oosThenSuccessProv deathSpiralDecision "H100" 80 1)[1]?).map
        (fun r => (r.gpu, r.vram, r.gpuCount)) = some ("T4", 16, 1) ∧
      (16 : ℚ) * 1 < (6 / 10) * (80 * 1) := by
  constructor
  · decide
  · norm_num

/-- C9 amended: the retry orchestrator applies no VRAM floor to the next
candidate: whenever the first attempt fails `out_of_stock` and the LLM
decision asks to retry with a (truthy) GPU name, VRAM and count, the
second dispatched attempt adopts exactly the proposed GPU, VRAM and
count, whatever they are — the 60% rule lives only in the LLM prompt
text and is enforced nowhere in the code. -/
theorem runProvisionLoop_adopts_decision_verbatim
    (provResult : Nat → ProvisioningResult)
    (decision : Nat → GpuRetryDecision)
    (gpu : String) (vram count : ℚ) (g2 : String) (v2 c2 : ℚ)
    (h0s : (provResult 0).success = false)
    (h0e : (provResult 0).errorType = some .out_of_stock)
    (hr : (decision 0).should_retry = true)
    (hg : jsTruthy (decision 0).next_gpu = some g2)
    (hv : (decision 0).next_vram = some v2) (hv0 : v2 ≠ 0)
    (hc : (decision 0).next_gpu_count = some c2) (hc0 : c2 ≠ 0) :
    ((runProvisionLoop provResult decision gpu vram count)[1]?).map
        (fun r => (r.gpu, r.vram, r.gpuCount)) = some (g2, v2, c2) := by
  have h3 : MAX_RETRIES = 2 + 1 := rfl
  unfold runProvisionLoop
  rw [h3, provisionRetryLoop_succ]
  rw [if_neg (by simp [h0s]), if_neg (by simp [h0e, MAX_RETRIES]),
    if_neg (by simp [hr, hg])]
  simp only [hg, hv, hc, Option.getD_some, jsNumOr, if_neg hv0, if_neg hc0]
  rw [show (2 : Nat) = 1 + 1 from rfl, provisionRetryLoop_succ]
  split
  · simp [routeAttemptRecord]
  split
  · simp [routeAttemptRecord]
  split
  · simp [routeAttemptRecord]
  simp [routeAttemptRecord]

/-- Witness for `runProvisionLoop_adopts_decision_verbatim` at the
concrete death-spiral oracles. -/
theorem runProvisionLoop_adopts_decision_verbatim_witness :
    ((runProvisionLoop oosThenSuccessProv deathSpiralDecision "H100" 80 1)[1]?).map
        (fun r => (r.gpu, r.vram, r.gpuCount)) = some ("T4", 16, 1) :=
  runProvisionLoop_adopts_decision_verbatim oosThenSuccessProv
    deathSpiralDecision "H100" 80 1 "T4" 16 1
    (by decide) (by decide) (by decide) (by decide) (by decide)
    (by norm_num) (by decide) (by norm_num)

/-! ## Rule-based selector (`findBestInstance`, src/lib/broker.ts, lines 217-248)

`findBestInstance` filters the inventory by total VRAM, the multi-GPU
constraint and architecture compatibility, sorts the survivors by price
with total VRAM as tie-break, and returns the first two entries.
TypeScript numbers (`vram`, `count`, `price`, `estimated_vram_gb`) are
modelled as `ℚ`; the sort is modelled by `List.mergeSort` under the total
preorder induced by the source comparator (JavaScript sort is stable, and
the claims only concern key-minimality of the head).
-/

/-- Architecture request enum of `SpecialistOutputSchema`
(`z.enum(["Any", "Ampere", "Hopper", "Ada"])`). -/
inductive GpuArchReq where
  | Any
  | Ampere
  | Hopper
  | Ada
deriving DecidableEq, Repr

/-- Complexity enum of `SpecialistOutputSchema`. -/
inductive Complexity where
  | Low
  | Medium
  | High
  | Enterprise
deriving DecidableEq, Repr

/-- Requirement record produced by the Specialist
(`SpecialistOutputSchema` in src/types/agentSchemas.ts). -/
structure SpecialistOutput where
  thinking : String
  estimated_vram_gb : ℚ
  recommended_gpu_architecture : GpuArchReq
  requires_multi_gpu : Bool
  setup_commands : List String
  project_complexity : Complexity
  complexity_reasoning : String
  recommended_cpu_cores : ℚ
  recommended_system_ram_gb : ℚ
  estimated_disk_space_gb : ℚ

/-- Catalog entry (`BrevInstanceSchema` in src/types/agentSchemas.ts). -/
structure BrevInstance where
  name : String
  vram : ℚ
  count : ℚ
  arch : String
  price : ℚ
deriving DecidableEq, Repr

/-- Pair of best and runner-up (`MatchResult` in src/types/agentSchemas.ts). -/
structure MatchResult where
  best : Option BrevInstance
  second_best : Option BrevInstance
deriving DecidableEq, Repr

/-- The `ARCH_COMPATIBILITY` table of `findBestInstance`
(src/lib/broker.ts, lines 221-226).  The schema restricts the requested
architecture to the four enum values, so the `|| ARCH_COMPATIBILITY.Any`
fallback of the source never fires and the lookup is total. -/
def ARCH_COMPATIBILITY : GpuArchReq → List String
  | .Any => ["Blackwell", "Hopper", "Ada", "Ampere", "Turing", "Volta", "Pascal", "Maxwell"]
  | .Ampere => ["Ampere", "Hopper", "Ada", "Blackwell"]
  | .Hopper => ["Hopper", "Blackwell"]
  | .Ada => ["Ada", "Hopper", "Blackwell"]

/-- Filter predicate of `findBestInstance` (the arrow function at
src/lib/broker.ts, lines 232-238), with its three early-return tests. -/
def suitableInstance (needs : SpecialistOutput) (inst : BrevInstance) : Bool :=
  if inst.vram * inst.count < needs.estimated_vram_gb then false
  else if needs.requires_multi_gpu = true ∧ inst.count < 2 then false
  else if ((ARCH_COMPATIBILITY needs.recommended_gpu_architecture).contains
      inst.arch) = false then false
  else true

/-- Ordering induced by the sort comparator of `findBestInstance`
(src/lib/broker.ts, lines 239-242): ascending price, ties broken by
ascending total VRAM. -/
def instanceLE (a b : BrevInstance) : Bool :=
  if a.price ≠ b.price then decide (a.price < b.price)
  else decide (a.vram * a.count ≤ b.vram * b.count)

/-- Model of `findBestInstance` (src/lib/broker.ts, lines 217-248):
filter, sort, and return the first two entries (`|| null`). -/
def findBestInstance (needs : SpecialistOutput) (inventory : List BrevInstance) :
    MatchResult :=
  let suitable := (inventory.filter (suitableInstance needs)).mergeSort instanceLE
  { best := suitable[0]?, second_best := suitable[1]? }

/-- Helper: unfolding of the filter predicate into its three conditions. -/
theorem suitableInstance_iff (needs : SpecialistOutput) (j : BrevInstance) :
    suitableInstance needs j = true ↔
      ((ARCH_COMPATIBILITY needs.recommended_gpu_architecture).contains j.arch
          = true ∧
        needs.estimated_vram_gb ≤ j.vram * j.count ∧
        (needs.requires_multi_gpu = true → 2 ≤ j.count)) := by
  unfold suitableInstance
  split_ifs with h1 h2 h3
  · constructor
    · simp
    · rintro ⟨-, hv, -⟩
      exact absurd h1 (not_lt.mpr hv)
  · constructor
    · simp
    · rintro ⟨-, -, hm⟩
      exact absurd (hm h2.1) (not_le.mpr h2.2)
  · constructor
    · simp
    · rintro ⟨ha, -, -⟩
      rw [ha] at h3
      cases h3
  · constructor
    · intro _
      refine ⟨by simpa using h3, not_lt.mp h1, fun hm => ?_⟩
      by_contra hlt
      exact h2 ⟨hm, not_le.mp hlt⟩
    · simp

/-- Helper: the comparator relation is transitive. -/
theorem instanceLE_trans (a b c : BrevInstance)
    (hab : instanceLE a b = true) (hbc : instanceLE b c = true) :
    instanceLE a c = true := by
  unfold instanceLE at hab hbc ⊢
  rcases eq_or_ne a.price b.price with e1 | e1 <;>
    rcases eq_or_ne b.price c.price with e2 | e2
  · rw [if_neg (fun hn => hn e1)] at hab
    rw [if_neg (fun hn => hn e2)] at hbc
    rw [if_neg (fun hn => hn (e1.trans e2))]
    simp only [decide_eq_true_eq] at *
    linarith
  · rw [if_neg (fun hn => hn e1)] at hab
    rw [if_pos e2] at hbc
    rw [if_pos (e1 ▸ e2)]
    simp only [decide_eq_true_eq] at *
    rw [e1]
    exact hbc
  · rw [if_pos e1] at hab
    rw [if_neg (fun hn => hn e2)] at hbc
    rw [if_pos (e2 ▸ e1)]
    simp only [decide_eq_true_eq] at *
    rw [← e2]
    exact hab
  · rw [if_pos e1] at hab
    rw [if_pos e2] at hbc
    simp only [decide_eq_true_eq] at hab hbc
    rw [if_pos (ne_of_lt (hab.trans hbc))]
    simp only [decide_eq_true_eq]
    exact hab.trans hbc

/-- Helper: the comparator relation is total. -/
theorem instanceLE_total (a b : BrevInstance) :
    (instanceLE a b || instanceLE b a) = true := by
  unfold instanceLE
  rcases lt_trichotomy a.price b.price with h | h | h
  · simp [ne_of_lt h, h]
  · rcases le_total (a.vram * a.count) (b.vram * b.count) with hv | hv <;>
      simp [h, hv]
  · simp [h.ne, h.ne', h]

/-- Helper: the chosen best entry is a member of the filtered inventory. -/
theorem findBestInstance_best_mem (needs : SpecialistOutput)
    (inventory : List BrevInstance) (i : BrevInstance)
    (h : (findBestInstance needs inventory).best = some i) :
    i ∈ inventory.filter (suitableInstance needs) := by
  unfold findBestInstance at h
  simp only at h
  have hmem : i ∈ (inventory.filter (suitableInstance needs)).mergeSort instanceLE := by
    obtain ⟨hlt, he⟩ := List.getElem?_eq_some_iff.mp h
    exact he ▸ List.getElem_mem hlt
  exact (List.mergeSort_perm (inventory.filter (suitableInstance needs))
    instanceLE).mem_iff.mp hmem

/-- Helper: the chosen best entry is minimal under the comparator among
all filtered entries. -/
theorem findBestInstance_best_min (needs : SpecialistOutput)
    (inventory : List BrevInstance) (i : BrevInstance)
    (h : (findBestInstance needs inventory).best = some i)
    (j : BrevInstance) (hj : j ∈ inventory.filter (suitableInstance needs)) :
    i = j ∨ instanceLE i j = true := by
  unfold findBestInstance at h
  simp only at h
  have hjs : j ∈ (inventory.filter (suitableInstance needs)).mergeSort instanceLE :=
    (List.mergeSort_perm (inventory.filter (suitableInstance needs))
      instanceLE).mem_iff.mpr hj
  have hsorted : List.Pairwise (fun a b => instanceLE a b = true)
      ((inventory.filter (suitableInstance needs)).mergeSort instanceLE) :=
    List.sorted_mergeSort instanceLE_trans instanceLE_total _
  rcases hs : (inventory.filter (suitableInstance needs)).mergeSort instanceLE with
    _ | ⟨x, t⟩
  · rw [hs] at h
    simp at h
  · rw [hs] at h hjs hsorted
    simp only [List.getElem?_cons_zero, Option.some_inj] at h
    subst h
    rcases List.mem_cons.mp hjs with hji | hjt
    · exact Or.inl hji.symm
    · exact Or.inr ((List.pairwise_cons.mp hsorted).1 j hjt)

/-- Helper: the best entry is `none` exactly when the filter keeps
nothing. -/
theorem findBestInstance_best_none_iff (needs : SpecialistOutput)
    (inventory : List BrevInstance) :
    (findBestInstance needs inventory).best = none ↔
      inventory.filter (suitableInstance needs) = [] := by
  unfold findBestInstance
  simp only
  rw [List.getElem?_eq_none_iff]
  constructor
  · intro h
    have := (List.mergeSort_perm (inventory.filter (suitableInstance needs))
      instanceLE).length_eq
    have h0 : ((inventory.filter (suitableInstance needs)).mergeSort instanceLE).length = 0 :=
      Nat.le_zero.mp h
    exact List.eq_nil_of_length_eq_zero (by omega)
  · intro h
    rw [h]
    simp

/-- C6: the best instance returned by `findBestInstance` is
architecture-compatible with the request per the substitution table, has
total VRAM at least the estimated requirement, respects the multi-GPU
constraint, and minimizes price among qualifying inventory entries with
ties broken by smallest total VRAM; and the best is `none` exactly when
no inventory entry qualifies. -/
theorem findBestInstance_selection_correct (needs : SpecialistOutput)
    (inventory : List BrevInstance) :
    (∀ i, (findBestInstance needs inventory).best = some i →
      ((ARCH_COMPATIBILITY needs.recommended_gpu_architecture).contains i.arch
          = true ∧
        needs.estimated_vram_gb ≤ i.vram * i.count ∧
        (needs.requires_multi_gpu = true → 2 ≤ i.count) ∧
        ∀ j ∈ inventory,
          ((ARCH_COMPATIBILITY needs.recommended_gpu_architecture).contains j.arch
              = true ∧
            needs.estimated_vram_gb ≤ j.vram * j.count ∧
            (needs.requires_multi_gpu = true → 2 ≤ j.count)) →
          i.price ≤ j.price ∧
            (i.price = j.price → i.vram * i.count ≤ j.vram * j.count))) ∧
    ((findBestInstance needs inventory).best = none ↔
      ∀ j ∈ inventory,
        ¬((ARCH_COMPATIBILITY needs.recommended_gpu_architecture).contains j.arch
            = true ∧
          needs.estimated_vram_gb ≤ j.vram * j.count ∧
          (needs.requires_multi_gpu = true → 2 ≤ j.count))) := by
  constructor
  · intro i hi
    have hmem := findBestInstance_best_mem needs inventory i hi
    have hsuit := (List.mem_filter.mp hmem).2
    obtain ⟨ha, hv, hm⟩ := (suitableInstance_iff needs i).mp hsuit
    refine ⟨ha, hv, hm, ?_⟩
    intro j hjinv hjq
    have hjf : j ∈ inventory.filter (suitableInstance needs) :=
      List.mem_filter.mpr ⟨hjinv, (suitableInstance_iff needs j).mpr hjq⟩
    rcases findBestInstance_best_min needs inventory i hi j hjf with rfl | hle
    · exact ⟨le_refl _, fun _ => le_refl _⟩
    · unfold instanceLE at hle
      by_cases hp : i.price = j.price
      · rw [if_neg (fun hn => hn hp)] at hle
        exact ⟨le_of_eq hp, fun _ => by simpa using hle⟩
      · rw [if_pos hp] at hle
        simp only [decide_eq_true_eq] at hle
        exact ⟨le_of_lt hle, fun he => absurd he hp⟩
  · rw [findBestInstance_best_none_iff, List.filter_eq_nil_iff]
    constructor
    · intro h j hj hq
      exact h j hj ((suitableInstance_iff needs j).mpr hq)
    · intro h j hj hs
      exact h j hj ((suitableInstance_iff needs j).mp hs)

/-- The 24 GB single-GPU Ada entry (`L4`) of the Brev inventory. -/
def l4Instance : BrevInstance :=
  { name := "L4", vram := 24, count := 1, arch := "Ada", price := 0.58 }

/-- A 22 GB Ada requirement (the spec's borderline headroom scenario). -/
def needs22Ada : SpecialistOutput :=
  { thinking := "Fine-tuning run, fp16 weights plus optimizer state"
    estimated_vram_gb := 22
    recommended_gpu_architecture := .Ada
    requires_multi_gpu := false
    setup_commands := ["pip install -r requirements.txt"]
    project_complexity := .Medium
    complexity_reasoning := "Single-node training of a mid-size model"
    recommended_cpu_cores := 8
    recommended_system_ram_gb := 32
    estimated_disk_space_gb := 100 }

/-- Helper: on an inventory holding only the 24 GB `L4`, the 22 GB Ada
requirement selects that entry as best. -/
theorem l4_best_eval :
    (findBestInstance needs22Ada [l4Instance]).best = some l4Instance := by
  have hsuit : suitableInstance needs22Ada l4Instance = true := by
    unfold suitableInstance needs22Ada l4Instance
    norm_num [ARCH_COMPATIBILITY]
  unfold findBestInstance
  simp [List.filter_cons, hsuit, List.mergeSort_singleton]

/-- C1 counterexample: `findBestInstance` applies no 1.2 headroom factor:
for the 22 GB requirement it returns the 24 GB single-GPU `L4` entry even
though `24 × 1 < 22 × 1.2 = 26.4` — the 24 GB card is accepted, not
rejected. -/
theorem findBestInstance_no_headroom_counterexample :
    (findBestInstance needs22Ada [l4Instance]).best = some l4Instance ∧
      l4Instance.vram * l4Instance.count <
        needs22Ada.estimated_vram_gb * (12 / 10) := by
  refine ⟨l4_best_eval, ?_⟩
  norm_num [l4Instance, needs22Ada]

/-- C1 amended: every candidate returned as best by `findBestInstance`
satisfies `vram × gpu_count ≥ estimated_vram_gb` — the raw estimate with
no headroom factor (the filter keeps any entry whose total VRAM meets the
bare requirement, so a 24 GB entry is accepted for a 22 GB estimate). -/
theorem findBestInstance_vram_at_least_estimate (needs : SpecialistOutput)
    (inventory : List BrevInstance) (i : BrevInstance)
    (h : (findBestInstance needs inventory).best = some i) :
    needs.estimated_vram_gb ≤ i.vram * i.count :=
  ((suitableInstance_iff needs i).mp
    (List.mem_filter.mp (findBestInstance_best_mem needs inventory i h)).2).2.1

/-- Witness for `findBestInstance_vram_at_least_estimate` at the concrete
22 GB requirement and singleton `L4` inventory. -/
theorem findBestInstance_vram_at_least_estimate_witness :
    needs22Ada.estimated_vram_gb ≤ l4Instance.vram * l4Instance.count :=
  findBestInstance_vram_at_least_estimate needs22Ada [l4Instance] l4Instance
    l4_best_eval

/-- Witness for `findBestInstance_selection_correct` at the concrete
22 GB requirement and singleton `L4` inventory. -/
theorem findBestInstance_selection_correct_witness :
    (ARCH_COMPATIBILITY needs22Ada.recommended_gpu_architecture).contains
        l4Instance.arch = true ∧
      needs22Ada.estimated_vram_gb ≤ l4Instance.vram * l4Instance.count :=
  have h := (findBestInstance_selection_correct needs22Ada [l4Instance]).1
    l4Instance l4_best_eval
  ⟨h.1, h.2.1⟩
